import Mathlib

/-!
Shallow embedding of `src/tools/fetch_from_arxiv.py` (llm-literature-explorer).

The file models, close to the source line by line:
  * the string primitives the script uses (`str.replace`, `in`, `str.strip`,
    the `/abs/([^/]+)$` regex search) as structurally recursive functions on
    character lists, so that every definition evaluates by `decide`/`rfl`;
  * the Record Normalizer (`normalize_arxiv_id`, `extract_pdf_url`,
    `fetch_entry`);
  * the Pagination Driver (`fetch_and_process_papers`) over an injected
    Page Fetcher, with an explicit trace of the requests it issues, the
    courtesy sleeps it performs, and the single `save_jsonl` append;
  * configuration lookup (`load_config` and the `config[...]` subscripts the
    driver performs);
  * the Artifact Downloader (`download_pdf`, `download_pdfs_for_records`)
    over an explicit file-system map and an injected transfer oracle.

Network transport, feed parsing, wall-clock time and `time.sleep` are external
collaborators: they appear as parameters (a fetcher / transfer oracle, a
timestamp string) and as counters in the result traces.
-/

namespace FetchFromArxiv

/-! ## String primitives (Python `str` operations used by the script) -/

/-- Python substring containment `pat in s`, on character lists: some suffix of
the scanned list starts with `pat`. -/
def containsSub (pat : List Char) : List Char → Bool
  | [] => pat.isEmpty
  | c :: rest => pat.isPrefixOf (c :: rest) || containsSub pat rest

/-- Auxiliary scan for Python `str.replace`: replaces every non-overlapping
occurrence of `pat`, scanning left to right.  `skip` counts characters of a
just-matched occurrence that remain to be consumed. -/
def replaceAux (pat rep : List Char) : Nat → List Char → List Char
  | _, [] => []
  | Nat.succ k, _ :: rest => replaceAux pat rep k rest
  | 0, c :: rest =>
      if pat.isPrefixOf (c :: rest) && !pat.isEmpty then
        rep ++ replaceAux pat rep (pat.length - 1) rest
      else c :: replaceAux pat rep 0 rest

/-- Python `s.replace(pat, rep)`: every non-overlapping occurrence of `pat`
replaced by `rep`, scanning left to right.  (The script never calls `replace`
with an empty pattern; for an empty pattern we return `s` unchanged.) -/
def pyReplace (s pat rep : String) : String :=
  if pat.isEmpty then s else (replaceAux pat.data rep.data 0 s.data).asString

/-- Python `s.strip()`: leading and trailing whitespace removed. -/
def pyStrip (s : String) : String :=
  (((s.data.dropWhile Char.isWhitespace).reverse.dropWhile Char.isWhitespace).reverse).asString

/-! ## Raw feed entries (the fields the script reads from a feedparser entry) -/

/-- One element of an entry's `links` list; `type` and `href` are read with
`link.get(...)`, so each may be missing. -/
structure FeedLink where
  type : Option String
  href : Option String
deriving DecidableEq

/-- One element of an entry's `authors` list; `name` read with `a.get("name")`. -/
structure FeedAuthor where
  name : Option String
deriving DecidableEq

/-- One element of an entry's `tags` list; `term` read with `t.get("term")`. -/
structure FeedTag where
  term : Option String
deriving DecidableEq

/-- A raw feedparser entry, restricted to the fields the script reads; every
field is optional / defaulted exactly as the corresponding `e.get(...)` call. -/
structure RawEntry where
  id : Option String
  title : Option String
  summary : Option String
  authors : List FeedAuthor
  published : Option String
  updated : Option String
  links : List FeedLink
  tags : List FeedTag
deriving DecidableEq

/-! ## Record Normalizer -/

/-- Default arXiv API URL (module constant, line 25). -/
def DEFAULT_ARXIV_API : String := "https://export.arxiv.org/api/query"

/-- `normalize_arxiv_id` (lines 75-78).  The Python runs
`re.search(r"/abs/([^/]+)$", entry_id)`: the regex matches exactly when
`entry_id` ends in `"/abs/" ++ seg` for a nonempty `seg` containing no `/`,
and such a `seg` is necessarily the maximal `/`-free suffix of the string
(the character before it is a `/`).  We compute that suffix and test the
suffix condition; on a match the match group is returned, otherwise the
input is returned unchanged. -/
def normalize_arxiv_id (entry_id : String) : String :=
  let seg := (entry_id.data.reverse.takeWhile (fun c => c ≠ '/')).reverse
  if !seg.isEmpty && (("/abs/".data ++ seg).isSuffixOf entry_id.data) then seg.asString
  else entry_id

/-- The link predicate of `extract_pdf_url` (line 84):
`link.get("type") == "application/pdf"`. -/
def is_pdf_link (l : FeedLink) : Bool := l.type == some "application/pdf"

/-- `extract_pdf_url` (lines 81-92).  First link whose declared type is
`application/pdf` wins (its `href` is returned even when missing, mirroring
`return link.get("href")`); otherwise, when the entry id is truthy, the id is
rewritten `https:// -> http://`, and if it contains `/abs/` the `abs -> pdf`
rewrite plus `".pdf"` suffix is returned; otherwise `None`. -/
def extract_pdf_url (e : RawEntry) : Option String :=
  match e.links.find? is_pdf_link with
  | some l => l.href
  | none =>
    match e.id with
    | some i =>
        if i ≠ "" then
          let abs_url := pyReplace i "https://" "http://"
          if containsSub "/abs/".data abs_url.data then
            some (pyReplace abs_url "/abs/" "/pdf/" ++ ".pdf")
          else none
        else none
    | none => none

/-- The canonical paper record produced by `fetch_entry` (lines 137-148).
`published`, `updated` and `abs_url` are stored exactly as `e.get(...)`
returns them (possibly `None`); `pdf_url` is optional. -/
structure PaperRecord where
  arxiv_id : String
  title : String
  summary : String
  authors : List String
  published : Option String
  updated : Option String
  abs_url : Option String
  pdf_url : Option String
  categories : List String
  fetched_at_utc : String
deriving DecidableEq

/-- `fetch_entry` (lines 125-148).  `now_iso` stands for
`datetime.utcnow().isoformat()` (wall clock, injected).  Truthiness tests in
the list comprehensions (`if a.get("name")`, `if t.get("term")`) drop both
missing and empty strings. -/
def fetch_entry (now_iso : String) (e : RawEntry) : PaperRecord :=
  { arxiv_id := normalize_arxiv_id (e.id.getD "")
    title := pyStrip (pyReplace (e.title.getD "") "\n" " ")
    summary := pyStrip (pyReplace (e.summary.getD "") "\n" " ")
    authors := e.authors.filterMap (fun a =>
      match a.name with
      | some n => if n = "" then none else some n
      | none => none)
    published := e.published
    updated := e.updated
    abs_url := e.id
    pdf_url := extract_pdf_url e
    categories := e.tags.filterMap (fun t =>
      match t.term with
      | some s => if s = "" then none else some s
      | none => none)
    fetched_at_utc := now_iso ++ "Z" }

example : normalize_arxiv_id "http://host/abs/2401.12345v2" = "2401.12345v2" := by decide

example : normalize_arxiv_id "no-abs-here" = "no-abs-here" := by decide

example : pyReplace "https://host/abs/2401.12345" "https://" "http://"
    = "http://host/abs/2401.12345" := by decide

example :
    extract_pdf_url
      { id := some "https://host/abs/2401.12345", title := none, summary := none,
        authors := [], published := none, updated := none, links := [], tags := [] }
      = some "http://host/pdf/2401.12345.pdf" := by decide

/-! ## Metadata Sink and `save_jsonl` -/

/-- The persistent state `save_jsonl` touches: whether the parent directory of
`out_jsonl` exists, and the file's lines (one `PaperRecord` serialized per
line; we keep the records themselves).  `file = none` means the file does not
exist yet. -/
structure Sink where
  parentDirExists : Bool
  file : Option (List PaperRecord)
deriving DecidableEq

/-- `save_jsonl` (lines 95-102): `os.makedirs(dirname, exist_ok=True)` when the
path has a directory component (when it does not, the parent is the working
directory, which exists — either way the parent exists afterwards), then
`open(path, "a")` — creating the file when absent — and one line appended per
record. -/
def save_jsonl (s : Sink) (records : List PaperRecord) : Sink :=
  { parentDirExists := true
    file := some (s.file.getD [] ++ records) }

/-! ## Pagination Driver -/

instance {ε α : Type} [DecidableEq ε] [DecidableEq α] : DecidableEq (Except ε α) := fun x y =>
  match x, y with
  | Except.error a, Except.error b =>
      if h : a = b then Decidable.isTrue (by rw [h])
      else Decidable.isFalse (fun hc => h (by cases hc; rfl))
  | Except.ok a, Except.ok b =>
      if h : a = b then Decidable.isTrue (by rw [h])
      else Decidable.isFalse (fun hc => h (by cases hc; rfl))
  | Except.error _, Except.ok _ => Decidable.isFalse (fun hc => Except.noConfusion hc)
  | Except.ok _, Except.error _ => Decidable.isFalse (fun hc => Except.noConfusion hc)

/-- Result of the paginated fetch loop (lines 223-244): the trace of
`arxiv_search` calls as `(start, max_results)` pairs, the number of courtesy
`time.sleep(1.0)` pauses between batches, and either the accumulated records
or the first propagated fetcher error. -/
structure LoopResult where
  calls : List (Int × Int)
  sleeps : Nat
  result : Except String (List PaperRecord)
deriving DecidableEq

/-- The `while fetched < total_to_fetch` loop of `fetch_and_process_papers`
(lines 223-244).  `fetcher start max_results` stands for one
`arxiv_search(...)` call returning the feed's `entries` (or raising).  Each
iteration requests `min(batch_size, total_to_fetch - fetched)` entries at
offset `fetched`; an empty page breaks out of the loop; otherwise every entry
is normalized by `fetch_entry`, appended to the accumulator, the offset
advances by the number of entries actually returned, and the loop sleeps
once before the next request. -/
def fetchLoop (fetcher : Int → Int → Except String (List RawEntry)) (now_iso : String)
    (batch_size total_to_fetch : Int) (fetched : Int) (acc : List PaperRecord)
    (calls : List (Int × Int)) (sleeps : Nat) : LoopResult :=
  if _h : fetched < total_to_fetch then
    match fetcher fetched (min batch_size (total_to_fetch - fetched)) with
    | Except.error e =>
        { calls := calls ++ [(fetched, min batch_size (total_to_fetch - fetched))],
          sleeps := sleeps, result := Except.error e }
    | Except.ok entries =>
        if hE : entries.isEmpty then
          { calls := calls ++ [(fetched, min batch_size (total_to_fetch - fetched))],
            sleeps := sleeps, result := Except.ok acc }
        else
          fetchLoop fetcher now_iso batch_size total_to_fetch
            (fetched + entries.length)
            (acc ++ entries.map (fetch_entry now_iso))
            (calls ++ [(fetched, min batch_size (total_to_fetch - fetched))])
            (sleeps + 1)
  else { calls := calls, sleeps := sleeps, result := Except.ok acc }
termination_by (total_to_fetch - fetched).toNat
decreasing_by
  have hne : entries ≠ [] := fun hnil => hE (by simp [hnil])
  have hlen : 0 < entries.length := List.length_pos.mpr hne
  omega

/-- Result of one whole `fetch_and_process_papers` run: the loop trace, the
returned records (or the propagated error), the resulting sink state, and how
many `save_jsonl` append operations were performed. -/
structure RunResult where
  calls : List (Int × Int)
  sleeps : Nat
  result : Except String (List PaperRecord)
  sink : Sink
  appends : Nat
deriving DecidableEq

/-- Lines 246-250 of `fetch_and_process_papers`: after the loop finishes
normally, `save_jsonl(out_jsonl, all_records)` runs exactly once and the
records are returned; when the loop raised, the exception propagates and
`save_jsonl` never runs (the sink is untouched). -/
def run_save (sink : Sink) (lr : LoopResult) : RunResult :=
  match lr.result with
  | Except.error e =>
      { calls := lr.calls, sleeps := lr.sleeps, result := Except.error e,
        sink := sink, appends := 0 }
  | Except.ok records =>
      { calls := lr.calls, sleeps := lr.sleeps, result := Except.ok records,
        sink := save_jsonl sink records, appends := 1 }

/-- `fetch_and_process_papers` (lines 199-250), with the already-extracted
config values `batch_size` and `total_to_fetch` as parameters (the subscripts
themselves are modelled separately for the configuration claims): run the
pagination loop from offset 0 with an empty accumulator, then commit. -/
def fetch_and_process_papers (fetcher : Int → Int → Except String (List RawEntry))
    (now_iso : String) (batch_size total_to_fetch : Int) (sink : Sink) : RunResult :=
  run_save sink (fetchLoop fetcher now_iso batch_size total_to_fetch 0 [] [] 0)

/-! Step lemmas for the loop (its recursion is well-founded, so concrete runs
are evaluated by rewriting with these). -/

theorem fetchLoop_stop (fetcher : Int → Int → Except String (List RawEntry))
    (now_iso : String) (b t f : Int) (acc : List PaperRecord)
    (calls : List (Int × Int)) (s : Nat) (h : ¬ f < t) :
    fetchLoop fetcher now_iso b t f acc calls s
      = { calls := calls, sleeps := s, result := Except.ok acc } := by
  rw [fetchLoop.eq_def, dif_neg h]

theorem fetchLoop_step_err (fetcher : Int → Int → Except String (List RawEntry))
    (now_iso : String) (b t f : Int) (acc : List PaperRecord)
    (calls : List (Int × Int)) (s : Nat) (e : String)
    (h : f < t) (hf : fetcher f (min b (t - f)) = Except.error e) :
    fetchLoop fetcher now_iso b t f acc calls s
      = { calls := calls ++ [(f, min b (t - f))], sleeps := s,
          result := Except.error e } := by
  rw [fetchLoop.eq_def, dif_pos h, hf]

theorem fetchLoop_step_empty (fetcher : Int → Int → Except String (List RawEntry))
    (now_iso : String) (b t f : Int) (acc : List PaperRecord)
    (calls : List (Int × Int)) (s : Nat)
    (h : f < t) (hf : fetcher f (min b (t - f)) = Except.ok []) :
    fetchLoop fetcher now_iso b t f acc calls s
      = { calls := calls ++ [(f, min b (t - f))], sleeps := s,
          result := Except.ok acc } := by
  rw [fetchLoop.eq_def, dif_pos h, hf]
  simp

theorem fetchLoop_step_ok (fetcher : Int → Int → Except String (List RawEntry))
    (now_iso : String) (b t f : Int) (acc : List PaperRecord)
    (calls : List (Int × Int)) (s : Nat) (entries : List RawEntry)
    (h : f < t) (hf : fetcher f (min b (t - f)) = Except.ok entries)
    (hne : entries ≠ []) :
    fetchLoop fetcher now_iso b t f acc calls s
      = fetchLoop fetcher now_iso b t (f + entries.length)
          (acc ++ entries.map (fetch_entry now_iso))
          (calls ++ [(f, min b (t - f))]) (s + 1) := by
  rw [fetchLoop.eq_def, dif_pos h, hf]
  dsimp only
  rw [dif_neg (by simp [hne])]

/-! ## Concrete fetcher stubs and entries used by the pagination claims -/

/-- A fixed raw entry used for stubbed pages. -/
def entry0 : RawEntry :=
  { id := some "http://arxiv.org/abs/2401.00001", title := some "T", summary := some "S",
    authors := [], published := some "2024-01-01", updated := some "2024-01-02",
    links := [], tags := [] }

/-- An empty sink whose output file already exists. -/
def sink0 : Sink := { parentDirExists := true, file := some [] }

/-- Page Fetcher stub for C1: successive calls (offsets 0, 100, beyond) return
100, 100, then 0 entries. -/
def stubA : Int → Int → Except String (List RawEntry) := fun start _ =>
  if start = 0 then Except.ok (List.replicate 100 entry0)
  else if start = 100 then Except.ok (List.replicate 100 entry0)
  else Except.ok []

/-- Page Fetcher stub for C2: 100 entries at offset 0, then a short page of 30
entries, then the source is exhausted. -/
def stubB : Int → Int → Except String (List RawEntry) := fun start _ =>
  if start = 0 then Except.ok (List.replicate 100 entry0)
  else if start = 100 then Except.ok (List.replicate 30 entry0)
  else Except.ok []

/-- Page Fetcher stub for C3's witness: one full page, then a transport error. -/
def fetcherErr : Int → Int → Except String (List RawEntry) := fun start _ =>
  if start = 0 then Except.ok [entry0, entry0] else Except.error "boom"

/-- C1: with `total_to_fetch = 250`, `batch_size = 100` and a fetcher returning
100, 100, then 0 entries, the driver issues exactly the three requests
`(0, 100)`, `(100, 100)`, `(200, 50)` — each sized `min(batch_size,
remaining)` — and terminates with exactly 200 accumulated normalized
records. -/
theorem pagination_bounded_fetch :
    (fetch_and_process_papers stubA "T0" 100 250 sink0).calls = [(0, 100), (100, 100), (200, 50)]
    ∧ (fetch_and_process_papers stubA "T0" 100 250 sink0).calls.length = 3
    ∧ (fetch_and_process_papers stubA "T0" 100 250 sink0).result
        = Except.ok (List.replicate 200 (fetch_entry "T0" entry0))
    ∧ (List.replicate 200 (fetch_entry "T0" entry0)).length = 200 := by
  have h1 : fetchLoop stubA "T0" 100 250 0 [] [] 0
      = fetchLoop stubA "T0" 100 250 100 (List.replicate 100 (fetch_entry "T0" entry0)) [(0, 100)] 1 := by
    rw [fetchLoop_step_ok stubA "T0" 100 250 0 [] [] 0 (List.replicate 100 entry0)
      (by decide) (by decide) (by decide)]
    norm_num [List.map_replicate, min_def]
  have h2 : fetchLoop stubA "T0" 100 250 100 (List.replicate 100 (fetch_entry "T0" entry0)) [(0, 100)] 1
      = fetchLoop stubA "T0" 100 250 200 (List.replicate 200 (fetch_entry "T0" entry0)) [(0, 100), (100, 100)] 2 := by
    rw [fetchLoop_step_ok stubA "T0" 100 250 100 _ [(0, 100)] 1 (List.replicate 100 entry0)
      (by decide) (by decide) (by decide)]
    norm_num [List.map_replicate, min_def, ← List.replicate_add]
  have h3 : fetchLoop stubA "T0" 100 250 200 (List.replicate 200 (fetch_entry "T0" entry0)) [(0, 100), (100, 100)] 2
      = { calls := [(0, 100), (100, 100), (200, 50)], sleeps := 2,
          result := Except.ok (List.replicate 200 (fetch_entry "T0" entry0)) } := by
    rw [fetchLoop_step_empty stubA "T0" 100 250 200 _ [(0, 100), (100, 100)] 2
      (by decide) (by decide)]
    norm_num [min_def]
  unfold fetch_and_process_papers
  rw [h1, h2, h3]
  exact ⟨rfl, rfl, rfl, by rw [List.length_replicate]⟩

/-- C2: with `total_to_fetch = 150`, `batch_size = 100` and a fetcher returning
100, then 30 entries (source exhausted afterwards), the offset advances by the
actual counts — the third request starts at 130 and returns zero entries — and
the run stops with exactly 130 records, not padded to 150. -/
theorem pagination_short_page :
    (fetch_and_process_papers stubB "T0" 100 150 sink0).calls = [(0, 100), (100, 50), (130, 20)]
    ∧ (fetch_and_process_papers stubB "T0" 100 150 sink0).result
        = Except.ok (List.replicate 130 (fetch_entry "T0" entry0))
    ∧ (List.replicate 130 (fetch_entry "T0" entry0)).length = 130 := by
  have h1 : fetchLoop stubB "T0" 100 150 0 [] [] 0
      = fetchLoop stubB "T0" 100 150 100 (List.replicate 100 (fetch_entry "T0" entry0)) [(0, 100)] 1 := by
    rw [fetchLoop_step_ok stubB "T0" 100 150 0 [] [] 0 (List.replicate 100 entry0)
      (by decide) (by decide) (by decide)]
    norm_num [List.map_replicate, min_def]
  have h2 : fetchLoop stubB "T0" 100 150 100 (List.replicate 100 (fetch_entry "T0" entry0)) [(0, 100)] 1
      = fetchLoop stubB "T0" 100 150 130 (List.replicate 130 (fetch_entry "T0" entry0)) [(0, 100), (100, 50)] 2 := by
    rw [fetchLoop_step_ok stubB "T0" 100 150 100 _ [(0, 100)] 1 (List.replicate 30 entry0)
      (by decide) (by decide) (by decide)]
    norm_num [List.map_replicate, min_def, ← List.replicate_add]
  have h3 : fetchLoop stubB "T0" 100 150 130 (List.replicate 130 (fetch_entry "T0" entry0)) [(0, 100), (100, 50)] 2
      = { calls := [(0, 100), (100, 50), (130, 20)], sleeps := 2,
          result := Except.ok (List.replicate 130 (fetch_entry "T0" entry0)) } := by
    rw [fetchLoop_step_empty stubB "T0" 100 150 130 _ [(0, 100), (100, 50)] 2
      (by decide) (by decide)]
    norm_num [min_def]
  unfold fetch_and_process_papers
  rw [h1, h2, h3]
  exact ⟨rfl, rfl, by rw [List.length_replicate]⟩

/-- Every traced request of a run has a strictly larger offset than every
request before it; in particular no request is ever issued twice (no retry). -/
theorem fetchLoop_calls_sorted_aux :
    ∀ (n : Nat) (fetcher : Int → Int → Except String (List RawEntry)) (now_iso : String)
      (b t f : Int) (acc : List PaperRecord) (calls : List (Int × Int)) (s : Nat),
      (t - f).toNat ≤ n →
      (∀ x ∈ calls, x.1 < f) →
      List.Pairwise (fun x y : Int × Int => x.1 < y.1) calls →
      List.Pairwise (fun x y : Int × Int => x.1 < y.1)
        (fetchLoop fetcher now_iso b t f acc calls s).calls := by
  intro n
  induction n with
  | zero =>
      intro fetcher now_iso b t f acc calls s hn hb hs
      rw [fetchLoop_stop fetcher now_iso b t f acc calls s (by omega)]
      exact hs
  | succ n ih =>
      intro fetcher now_iso b t f acc calls s hn hb hs
      by_cases hlt : f < t
      · cases hf : fetcher f (min b (t - f)) with
        | error e =>
            rw [fetchLoop_step_err fetcher now_iso b t f acc calls s e hlt hf]
            refine List.pairwise_append.mpr ⟨hs, by simp, ?_⟩
            intro x hx y hy
            simp only [List.mem_singleton] at hy
            subst hy
            exact hb x hx
        | ok entries =>
            by_cases hne : entries = []
            · subst hne
              rw [fetchLoop_step_empty fetcher now_iso b t f acc calls s hlt hf]
              refine List.pairwise_append.mpr ⟨hs, by simp, ?_⟩
              intro x hx y hy
              simp only [List.mem_singleton] at hy
              subst hy
              exact hb x hx
            · rw [fetchLoop_step_ok fetcher now_iso b t f acc calls s entries hlt hf hne]
              have hlen : 0 < entries.length := List.length_pos.mpr hne
              apply ih
              · omega
              · intro x hx
                rcases List.mem_append.mp hx with h1 | h2
                · have := hb x h1
                  omega
                · simp only [List.mem_singleton] at h2
                  subst h2
                  simp only
                  omega
              · refine List.pairwise_append.mpr ⟨hs, by simp, ?_⟩
                intro x hx y hy
                simp only [List.mem_singleton] at hy
                subst hy
                exact hb x hx
      · rw [fetchLoop_stop fetcher now_iso b t f acc calls s hlt]
        exact hs

/-- C3: a fetcher error propagates out of the driver — the run's result is that
error, `save_jsonl` is never invoked (zero appends) and the sink is exactly the
sink the run started with, so neither the failed page nor records from
already-completed pages are committed; moreover the traced request offsets are
strictly increasing in every run, so no request is ever retried. -/
theorem fetch_failure_atomicity :
    (∀ (fetcher : Int → Int → Except String (List RawEntry)) (now_iso : String)
        (b t : Int) (sink : Sink) (e : String),
        (fetch_and_process_papers fetcher now_iso b t sink).result = Except.error e →
        (fetch_and_process_papers fetcher now_iso b t sink).sink = sink ∧
        (fetch_and_process_papers fetcher now_iso b t sink).appends = 0)
    ∧ (∀ (fetcher : Int → Int → Except String (List RawEntry)) (now_iso : String)
        (b t : Int) (sink : Sink),
        List.Pairwise (fun x y : Int × Int => x.1 < y.1)
          (fetch_and_process_papers fetcher now_iso b t sink).calls) := by
  constructor
  · intro fetcher now_iso b t sink e h
    unfold fetch_and_process_papers run_save at h ⊢
    cases hr : (fetchLoop fetcher now_iso b t 0 [] [] 0).result with
    | error e' => exact ⟨rfl, rfl⟩
    | ok recs => rw [hr] at h; exact Except.noConfusion h
  · intro fetcher now_iso b t sink
    have hs := fetchLoop_calls_sorted_aux (t - 0).toNat fetcher now_iso b t 0 [] [] 0
      (by omega) (by simp) (by simp)
    unfold fetch_and_process_papers run_save
    cases hr : (fetchLoop fetcher now_iso b t 0 [] [] 0).result with
    | error e' => simpa using hs
    | ok recs => simpa using hs

/-- Witness for C3: a concrete run whose second page fetch raises `"boom"`
leaves the sink untouched and performs zero appends, although the first page
had already returned two entries. -/
theorem fetch_failure_atomicity_witness :
    (fetch_and_process_papers fetcherErr "T0" 2 5 { parentDirExists := true, file := some [] }).sink
        = { parentDirExists := true, file := some [] }
    ∧ (fetch_and_process_papers fetcherErr "T0" 2 5 { parentDirExists := true, file := some [] }).appends = 0 := by
  have h1 : fetchLoop fetcherErr "T0" 2 5 0 [] [] 0
      = fetchLoop fetcherErr "T0" 2 5 2 ([entry0, entry0].map (fetch_entry "T0")) [(0, 2)] 1 := by
    rw [fetchLoop_step_ok fetcherErr "T0" 2 5 0 [] [] 0 [entry0, entry0]
      (by decide) (by decide) (by decide)]
    norm_num [min_def]
  have h2 : fetchLoop fetcherErr "T0" 2 5 2 ([entry0, entry0].map (fetch_entry "T0")) [(0, 2)] 1
      = { calls := [(0, 2), (2, 2)], sleeps := 1, result := Except.error "boom" } := by
    rw [fetchLoop_step_err fetcherErr "T0" 2 5 2 _ [(0, 2)] 1 "boom" (by decide) (by decide)]
    norm_num [min_def]
  have hres : (fetch_and_process_papers fetcherErr "T0" 2 5 { parentDirExists := true, file := some [] }).result
      = Except.error "boom" := by
    unfold fetch_and_process_papers
    rw [h1, h2]
    rfl
  exact fetch_failure_atomicity.1 fetcherErr "T0" 2 5 { parentDirExists := true, file := some [] } "boom" hres

/-- C10: when `total_to_fetch ≤ 0` the loop body never runs — zero fetcher
calls, zero courtesy sleeps, an empty record list — and `save_jsonl` still runs
exactly once, ensuring the parent directory exists and creating/appending the
output file with zero new lines. -/
theorem empty_run_behavior (fetcher : Int → Int → Except String (List RawEntry))
    (now_iso : String) (b t : Int) (sink : Sink) (h : t ≤ 0) :
    fetch_and_process_papers fetcher now_iso b t sink
      = { calls := [], sleeps := 0, result := Except.ok [],
          sink := { parentDirExists := true, file := some (sink.file.getD []) },
          appends := 1 } := by
  unfold fetch_and_process_papers
  rw [fetchLoop_stop fetcher now_iso b t 0 [] [] 0 (by omega)]
  simp [run_save, save_jsonl]

/-- Witness for C10: `total_to_fetch = 0` against an initially absent output
file — no fetches, no sleeps, and the file is created empty. -/
theorem empty_run_behavior_witness :
    fetch_and_process_papers (fun _ _ => Except.ok []) "T0" 100 0 { parentDirExists := false, file := none }
      = { calls := [], sleeps := 0, result := Except.ok [],
          sink := { parentDirExists := true, file := some [] }, appends := 1 } := by
  have h := empty_run_behavior (fun _ _ => Except.ok []) "T0" 100 0
    { parentDirExists := false, file := none } (by norm_num)
  simpa using h

/-! ## Configuration (`load_config` and the driver's config subscripts) -/

/-- A YAML scalar/list value as the script uses them. -/
inductive ConfigVal where
  | str : String → ConfigVal
  | int : Int → ConfigVal
  | bool : Bool → ConfigVal
  | strList : List String → ConfigVal
deriving DecidableEq

/-- The parsed config dict, as an insertion-ordered association list. -/
abbrev Config := List (String × ConfigVal)

/-- Python `key in config`. -/
def Config.containsKey (c : Config) (k : String) : Bool := c.any (fun kv => kv.1 == k)

/-- Python `config.get(key)` (the value at a key, if present). -/
def Config.getVal : Config → String → Option ConfigVal
  | [], _ => none
  | (k', v) :: rest, k => if k = k' then some v else Config.getVal rest k

/-- Python `config[key] = v` (overwrite when present, else add). -/
def Config.setVal : Config → String → ConfigVal → Config
  | [], k, v => [(k, v)]
  | (k', v') :: rest, k, v =>
      if k' = k then (k, v) :: rest else (k', v') :: Config.setVal rest k v

/-- The required-field list of `load_config` (lines 163-164). -/
def required_fields : List String :=
  ["out_jsonl", "download_pdfs", "pdf_dir", "batch_size", "total_to_fetch",
   "keywords", "ArXiv_categories"]

/-- `load_config` (lines 151-169), after the YAML file has been parsed into
`config`: when the key `"arxiv_api"` is absent the key `"ArXiv_api"` is set to
the default endpoint (note the differing spelling, exactly as in the source);
then each required field is checked in order and the first missing one raises
`ValueError`. -/
def load_config (config : Config) : Except String Config :=
  let config :=
    if Config.containsKey config "arxiv_api" then config
    else Config.setVal config "ArXiv_api" (ConfigVal.str DEFAULT_ARXIV_API)
  match required_fields.find? (fun f => !Config.containsKey config f) with
  | some f => Except.error ("Missing required field " ++ f)
  | none => Except.ok config

/-- Python `config[key]`: the value, or a propagated `KeyError`. -/
def config_subscript (config : Config) (k : String) : Except String ConfigVal :=
  match Config.getVal config k with
  | some v => Except.ok v
  | none => Except.error ("KeyError: " ++ k)

/-- Lines 217-220 of `fetch_and_process_papers`: the four `config[...]`
subscripts evaluated before the loop, in source order; the value returned is
`config["ArXiv_api"]`, which is then passed as the endpoint of every
`arxiv_search` call.  A missing key raises `KeyError` before any page
fetch. -/
def driver_arxiv_api (config : Config) : Except String ConfigVal := do
  let _ ← config_subscript config "out_jsonl"
  let _ ← config_subscript config "batch_size"
  let _ ← config_subscript config "total_to_fetch"
  config_subscript config "ArXiv_api"

/-- A config holding every required field (and nothing else). -/
def baseConfig : Config :=
  [("out_jsonl", ConfigVal.str "data/papers.jsonl"),
   ("download_pdfs", ConfigVal.bool true),
   ("pdf_dir", ConfigVal.str "pdfs"),
   ("batch_size", ConfigVal.int 100),
   ("total_to_fetch", ConfigVal.int 250),
   ("keywords", ConfigVal.strList ["llm"]),
   ("ArXiv_categories", ConfigVal.strList ["cs.CL"])]

/-- `baseConfig` plus the documented optional override `arxiv_api`. -/
def overrideConfig : Config :=
  baseConfig ++ [("arxiv_api", ConfigVal.str "http://example.com/api")]

/-- C7 (code bug evidence): with `arxiv_api` absent, configuration loading
injects the default endpoint under `"ArXiv_api"` and the driver reads it back;
but with `arxiv_api` present, loading succeeds without copying the override to
the `"ArXiv_api"` key the driver reads, so the driver's subscript raises
`KeyError: ArXiv_api` before any page fetch — the supplied override is never
used as the endpoint. -/
theorem arxiv_api_override_keyerror :
    (load_config overrideConfig = Except.ok overrideConfig
      ∧ driver_arxiv_api overrideConfig = Except.error "KeyError: ArXiv_api")
    ∧ (load_config baseConfig =
        Except.ok (Config.setVal baseConfig "ArXiv_api" (ConfigVal.str DEFAULT_ARXIV_API))
      ∧ driver_arxiv_api (Config.setVal baseConfig "ArXiv_api" (ConfigVal.str DEFAULT_ARXIV_API)) =
        Except.ok (ConfigVal.str DEFAULT_ARXIV_API)) := by
  decide

/-! ## Normalizer claims (C8, C9) -/

/-- A raw entry carrying only an identifier: every optional field missing. -/
def entryIdOnly : RawEntry :=
  { id := some "http://arxiv.org/abs/2401.12345", title := none, summary := none,
    authors := [], published := none, updated := none, links := [], tags := [] }

/-- C8 counterexample: on an entry with only an identifier, the normalizer maps
the absent `published` field to `None` (serialized `null`), not to the empty
string the claim asserts. -/
theorem fetch_entry_absent_published_not_empty_string :
    (fetch_entry "2026-01-01T00:00:00" entryIdOnly).published = none
    ∧ (fetch_entry "2026-01-01T00:00:00" entryIdOnly).published ≠ some ""
    ∧ (fetch_entry "2026-01-01T00:00:00" entryIdOnly).updated ≠ some "" := by
  decide

/-- C8 amended: normalization is a total function (it cannot raise), and an
entry carrying only an identifier yields the record whose title and summary
are empty strings, whose author and category sequences are empty, whose
`published`/`updated` are absent (`None`), and whose `abs_url`/`pdf_url` are
derived from the identifier, with `fetched_at` always set. -/
theorem fetch_entry_id_only_record (now_iso : String) :
    fetch_entry now_iso entryIdOnly =
      { arxiv_id := "2401.12345", title := "", summary := "", authors := [],
        published := none, updated := none,
        abs_url := some "http://arxiv.org/abs/2401.12345",
        pdf_url := some "http://arxiv.org/pdf/2401.12345.pdf",
        categories := [], fetched_at_utc := now_iso ++ "Z" } := by
  rfl

/-- The entry of C9's worked example: canonical URL with an `/abs/` segment and
no PDF-typed link. -/
def entryAbsOnly : RawEntry :=
  { id := some "https://host/abs/2401.12345", title := none, summary := none,
    authors := [], published := none, updated := none, links := [], tags := [] }

/-- C9: artifact URL resolution order — (a) the first PDF-typed link's URL wins
when such a link exists; (b) otherwise a truthy canonical URL containing
`/abs/` (after forcing the insecure scheme) is rewritten to the `/pdf/` path
with a `.pdf` suffix; (c) otherwise no artifact URL; and the worked example
`https://host/abs/2401.12345` resolves to `http://host/pdf/2401.12345.pdf`. -/
theorem extract_pdf_url_resolution_order :
    (∀ (e : RawEntry) (l : FeedLink) (u : String),
        e.links.find? is_pdf_link = some l → l.href = some u →
        extract_pdf_url e = some u)
    ∧ (∀ (e : RawEntry) (i : String),
        e.links.find? is_pdf_link = none → e.id = some i → i ≠ "" →
        containsSub "/abs/".data (pyReplace i "https://" "http://").data = true →
        extract_pdf_url e =
          some (pyReplace (pyReplace i "https://" "http://") "/abs/" "/pdf/" ++ ".pdf"))
    ∧ (∀ (e : RawEntry) (i : String),
        e.links.find? is_pdf_link = none → e.id = some i → i ≠ "" →
        containsSub "/abs/".data (pyReplace i "https://" "http://").data = false →
        extract_pdf_url e = none)
    ∧ (∀ (e : RawEntry),
        e.links.find? is_pdf_link = none → (e.id = none ∨ e.id = some "") →
        extract_pdf_url e = none)
    ∧ extract_pdf_url entryAbsOnly = some "http://host/pdf/2401.12345.pdf" := by
  refine ⟨?_, ?_, ?_, ?_, by decide⟩
  · intro e l u hfind hhref
    unfold extract_pdf_url
    rw [hfind]
    exact hhref
  · intro e i hfind hid hne habs
    unfold extract_pdf_url
    rw [hfind, hid]
    dsimp only
    rw [if_pos hne, if_pos habs]
  · intro e i hfind hid hne habs
    unfold extract_pdf_url
    rw [hfind, hid]
    dsimp only
    rw [if_pos hne, if_neg (by simp [habs])]
  · intro e hfind hid
    unfold extract_pdf_url
    rw [hfind]
    rcases hid with hid | hid
    · rw [hid]
    · rw [hid]
      simp

/-- Witness for C9: the fallback branch applied at a concrete entry. -/
theorem extract_pdf_url_resolution_order_witness :
    extract_pdf_url entryAbsOnly
      = some (pyReplace (pyReplace "https://host/abs/2401.12345" "https://" "http://") "/abs/" "/pdf/" ++ ".pdf") := by
  have h := extract_pdf_url_resolution_order.2.1 entryAbsOnly "https://host/abs/2401.12345"
    (by decide) (by decide) (by decide) (by decide)
  exact h

/-! ## Artifact Downloader (`download_pdf`, `download_pdfs_for_records`) -/

/-- The destination directory's files: path to byte content. -/
abbrev FS := List (String × List Nat)

/-- Python `os.path.exists` lookup / file read on the modelled directory. -/
def FS.lookup : FS → String → Option (List Nat)
  | [], _ => none
  | (k, v) :: rest, key => if key = k then some v else FS.lookup rest key

/-- `open(path, "wb")` followed by writes: create or overwrite the file. -/
def FS.insert : FS → String → List Nat → FS
  | [], k, v => [(k, v)]
  | (k', v') :: rest, k, v =>
      if k' = k then (k, v) :: rest else (k', v') :: FS.insert rest k v

/-- Outcome of one streaming GET of an artifact URL (the network/transport
oracle injected in place of `requests.get` + `iter_content`):
either the full body arrives, or the request fails before any body byte is
available (connection error, timeout on connect, or a non-success status
detected by `raise_for_status`), or the stream breaks after a prefix of the
body has been received. -/
inductive TransferOutcome where
  | success (content : List Nat)
  | failBeforeBody
  | failMidStream (part : List Nat)
deriving DecidableEq

/-- `download_pdf` (lines 105-112): `requests.get(...)` and
`r.raise_for_status()` run before `open(out_path, "wb")`, so a failure there
leaves the file system untouched; once streaming has begun the received chunks
are written as they arrive, so a mid-stream failure leaves the partial bytes
at `out_path`.  Returns the resulting file system and whether an exception
was raised. -/
def download_pdf (transfer : String → TransferOutcome) (pdf_url out_path : String)
    (fs : FS) : FS × Bool :=
  match transfer pdf_url with
  | TransferOutcome.success content => (FS.insert fs out_path content, false)
  | TransferOutcome.failBeforeBody => (fs, true)
  | TransferOutcome.failMidStream part => (FS.insert fs out_path part, true)

/-- The destination path of a record (lines 186-188):
`safe_name = arxiv_id.replace("/", "_")`, then
`os.path.join(pdf_dir, safe_name + ".pdf")`. -/
def pdf_path_for (pdf_dir : String) (rec : PaperRecord) : String :=
  pdf_dir ++ "/" ++ pyReplace rec.arxiv_id "/" "_" ++ ".pdf"

/-- Observable state of one `download_pdfs_for_records` run: the directory
contents, the indices of records for which a network transfer was started
(`download_pdf` invoked), the indices whose download raised (caught and
reported), the courtesy sleeps after successful downloads, and the number of
loop iterations performed. -/
structure DlState where
  fs : FS
  attempts : List Nat
  failures : List Nat
  sleeps : Nat
  visited : Nat
deriving DecidableEq

/-- The loop body of `download_pdfs_for_records` (lines 182-196) for the
record at position `i`: skip when `pdf_url` is falsy; skip when a file already
exists at the destination; otherwise call `download_pdf` inside `try` —
on success print and sleep, on any exception report the failure and
continue. -/
def dlStep (transfer : String → TransferOutcome) (pdf_dir : String)
    (i : Nat) (rec : PaperRecord) (st : DlState) : DlState :=
  match rec.pdf_url with
  | none => { st with visited := st.visited + 1 }
  | some url =>
      if url = "" then { st with visited := st.visited + 1 }
      else if (FS.lookup st.fs (pdf_path_for pdf_dir rec)).isSome then
        { st with visited := st.visited + 1 }
      else
        match download_pdf transfer url (pdf_path_for pdf_dir rec) st.fs with
        | (fs', false) =>
            { st with visited := st.visited + 1, fs := fs',
                      attempts := st.attempts ++ [i], sleeps := st.sleeps + 1 }
        | (fs', true) =>
            { st with visited := st.visited + 1, fs := fs',
                      attempts := st.attempts ++ [i], failures := st.failures ++ [i] }

/-- The `for rec in records` loop, threading the position index. -/
def dlLoop (transfer : String → TransferOutcome) (pdf_dir : String) :
    List PaperRecord → Nat → DlState → DlState
  | [], _, st => st
  | rec :: rest, i, st =>
      dlLoop transfer pdf_dir rest (i + 1) (dlStep transfer pdf_dir i rec st)

/-- `download_pdfs_for_records` (lines 172-196).  The initial
`os.makedirs(pdf_dir, exist_ok=True)` only creates the directory and is not
tracked (the `FS` map holds files). -/
def download_pdfs_for_records (transfer : String → TransferOutcome)
    (records : List PaperRecord) (pdf_dir : String) (fs : FS) : DlState :=
  dlLoop transfer pdf_dir records 0
    { fs := fs, attempts := [], failures := [], sleeps := 0, visited := 0 }

theorem FS.lookup_insert_self (fs : FS) (k : String) (v : List Nat) :
    FS.lookup (FS.insert fs k v) k = some v := by
  induction fs with
  | nil => simp [FS.insert, FS.lookup]
  | cons kv rest ih =>
      obtain ⟨k', v'⟩ := kv
      by_cases h : k' = k
      · subst h
        simp [FS.insert, FS.lookup]
      · simp only [FS.insert, if_neg h]
        rw [FS.lookup, if_neg (fun hc => h hc.symm)]
        exact ih

theorem FS.lookup_insert_ne (fs : FS) (k key : String) (v : List Nat)
    (h : key ≠ k) : FS.lookup (FS.insert fs k v) key = FS.lookup fs key := by
  induction fs with
  | nil => simp [FS.insert, FS.lookup, h]
  | cons kv rest ih =>
      obtain ⟨k', v'⟩ := kv
      by_cases hk : k' = k
      · subst hk
        simp only [FS.insert, if_pos rfl]
        simp only [FS.lookup, if_neg h]
      · simp only [FS.insert, if_neg hk]
        simp only [FS.lookup]
        by_cases hk2 : key = k'
        · rw [if_pos hk2, if_pos hk2]
        · rw [if_neg hk2, if_neg hk2]
          exact ih

/-- An existing file is never touched by one loop iteration. -/
theorem dlStep_fs_preserve (transfer : String → TransferOutcome) (pdf_dir : String)
    (i : Nat) (rec : PaperRecord) (st : DlState) (p : String) (c : List Nat)
    (h : FS.lookup st.fs p = some c) :
    FS.lookup (dlStep transfer pdf_dir i rec st).fs p = some c := by
  unfold dlStep
  cases hu : rec.pdf_url with
  | none => exact h
  | some url =>
      by_cases he : url = ""
      · simp only [if_pos he]
        exact h
      · simp only [if_neg he]
        by_cases hex : (FS.lookup st.fs (pdf_path_for pdf_dir rec)).isSome
        · simp only [if_pos hex]
          exact h
        · simp only [if_neg hex]
          have hnone : FS.lookup st.fs (pdf_path_for pdf_dir rec) = none :=
            Option.not_isSome_iff_eq_none.mp hex
          have hne : p ≠ pdf_path_for pdf_dir rec := by
            intro hc
            rw [hc, hnone] at h
            exact Option.noConfusion h
          unfold download_pdf
          cases transfer url with
          | success content =>
              dsimp only
              rw [FS.lookup_insert_ne _ _ _ _ hne]
              exact h
          | failBeforeBody => exact h
          | failMidStream part =>
              dsimp only
              rw [FS.lookup_insert_ne _ _ _ _ hne]
              exact h

/-- When the destination file already exists, the iteration is a pure skip:
no transfer, no failure, nothing changed but the iteration count. -/
theorem dlStep_skip (transfer : String → TransferOutcome) (pdf_dir : String)
    (i : Nat) (rec : PaperRecord) (st : DlState) (c : List Nat)
    (h : FS.lookup st.fs (pdf_path_for pdf_dir rec) = some c) :
    dlStep transfer pdf_dir i rec st = { st with visited := st.visited + 1 } := by
  unfold dlStep
  cases hu : rec.pdf_url with
  | none => rfl
  | some url =>
      by_cases he : url = ""
      · simp only [if_pos he]
      · simp only [if_neg he]
        rw [if_pos (by rw [h]; exact rfl)]

theorem dlStep_visited (transfer : String → TransferOutcome) (pdf_dir : String)
    (i : Nat) (rec : PaperRecord) (st : DlState) :
    (dlStep transfer pdf_dir i rec st).visited = st.visited + 1 := by
  unfold dlStep
  cases rec.pdf_url with
  | none => rfl
  | some url =>
      by_cases he : url = ""
      · simp only [if_pos he]
      · simp only [if_neg he]
        by_cases hex : (FS.lookup st.fs (pdf_path_for pdf_dir rec)).isSome
        · simp only [if_pos hex]
        · simp only [if_neg hex]
          unfold download_pdf
          cases transfer url <;> rfl

/-- Any index in the attempts or failures list after one iteration was already
there, or is the iteration's own index. -/
theorem dlStep_mem_bound (transfer : String → TransferOutcome) (pdf_dir : String)
    (i : Nat) (rec : PaperRecord) (st : DlState) (k : Nat) :
    ((k ∈ (dlStep transfer pdf_dir i rec st).attempts → k ∈ st.attempts ∨ k = i)
      ∧ (k ∈ (dlStep transfer pdf_dir i rec st).failures → k ∈ st.failures ∨ k = i)) := by
  unfold dlStep
  cases rec.pdf_url with
  | none => exact ⟨fun h => Or.inl h, fun h => Or.inl h⟩
  | some url =>
      by_cases he : url = ""
      · simp only [if_pos he]
        exact ⟨fun h => Or.inl h, fun h => Or.inl h⟩
      · simp only [if_neg he]
        by_cases hex : (FS.lookup st.fs (pdf_path_for pdf_dir rec)).isSome
        · simp only [if_pos hex]
          exact ⟨fun h => Or.inl h, fun h => Or.inl h⟩
        · simp only [if_neg hex]
          unfold download_pdf
          cases transfer url with
          | success content =>
              dsimp only
              constructor
              · intro h
                rcases List.mem_append.mp h with h | h
                · exact Or.inl h
                · exact Or.inr (List.mem_singleton.mp h)
              · exact fun h => Or.inl h
          | failBeforeBody =>
              dsimp only
              constructor
              · intro h
                rcases List.mem_append.mp h with h | h
                · exact Or.inl h
                · exact Or.inr (List.mem_singleton.mp h)
              · intro h
                rcases List.mem_append.mp h with h | h
                · exact Or.inl h
                · exact Or.inr (List.mem_singleton.mp h)
          | failMidStream part =>
              dsimp only
              constructor
              · intro h
                rcases List.mem_append.mp h with h | h
                · exact Or.inl h
                · exact Or.inr (List.mem_singleton.mp h)
              · intro h
                rcases List.mem_append.mp h with h | h
                · exact Or.inl h
                · exact Or.inr (List.mem_singleton.mp h)

theorem dlLoop_append (transfer : String → TransferOutcome) (pdf_dir : String)
    (xs ys : List PaperRecord) (i : Nat) (st : DlState) :
    dlLoop transfer pdf_dir (xs ++ ys) i st
      = dlLoop transfer pdf_dir ys (i + xs.length) (dlLoop transfer pdf_dir xs i st) := by
  induction xs generalizing i st with
  | nil => simp [dlLoop]
  | cons x rest ih =>
      simp only [List.cons_append, dlLoop, List.append_eq]
      rw [ih]
      congr 1
      simp only [List.length_cons]
      omega

theorem dlLoop_fs_preserve (transfer : String → TransferOutcome) (pdf_dir : String)
    (recs : List PaperRecord) (i : Nat) (st : DlState) (p : String) (c : List Nat)
    (h : FS.lookup st.fs p = some c) :
    FS.lookup (dlLoop transfer pdf_dir recs i st).fs p = some c := by
  induction recs generalizing i st with
  | nil => exact h
  | cons r rest ih =>
      exact ih (i + 1) _ (dlStep_fs_preserve transfer pdf_dir i r st p c h)

theorem dlLoop_mem_bound (transfer : String → TransferOutcome) (pdf_dir : String)
    (recs : List PaperRecord) (i : Nat) (st : DlState) (k : Nat) :
    ((k ∈ (dlLoop transfer pdf_dir recs i st).attempts →
        k ∈ st.attempts ∨ (i ≤ k ∧ k < i + recs.length))
      ∧ (k ∈ (dlLoop transfer pdf_dir recs i st).failures →
        k ∈ st.failures ∨ (i ≤ k ∧ k < i + recs.length))) := by
  induction recs generalizing i st with
  | nil => exact ⟨fun h => Or.inl h, fun h => Or.inl h⟩
  | cons r rest ih =>
      constructor
      · intro h
        rcases (ih (i + 1) (dlStep transfer pdf_dir i r st)).1 h with h | h
        · rcases (dlStep_mem_bound transfer pdf_dir i r st k).1 h with h | h
          · exact Or.inl h
          · subst h
            right
            simp only [List.length_cons]
            omega
        · right
          simp only [List.length_cons]
          omega
      · intro h
        rcases (ih (i + 1) (dlStep transfer pdf_dir i r st)).2 h with h | h
        · rcases (dlStep_mem_bound transfer pdf_dir i r st k).2 h with h | h
          · exact Or.inl h
          · subst h
            right
            simp only [List.length_cons]
            omega
        · right
          simp only [List.length_cons]
          omega

theorem dlLoop_visited (transfer : String → TransferOutcome) (pdf_dir : String)
    (recs : List PaperRecord) (i : Nat) (st : DlState) :
    (dlLoop transfer pdf_dir recs i st).visited = st.visited + recs.length := by
  induction recs generalizing i st with
  | nil => simp [dlLoop]
  | cons r rest ih =>
      simp only [dlLoop, List.length_cons]
      rw [ih, dlStep_visited]
      omega

/-- Concrete records for the downloader claims: three records with distinct
ids and artifact URLs. -/
def recA : PaperRecord :=
  { arxiv_id := "2401.0001", title := "", summary := "", authors := [],
    published := none, updated := none, abs_url := none,
    pdf_url := some "http://h/a.pdf", categories := [], fetched_at_utc := "" }

def recB : PaperRecord :=
  { arxiv_id := "2401.0002", title := "", summary := "", authors := [],
    published := none, updated := none, abs_url := none,
    pdf_url := some "http://h/b.pdf", categories := [], fetched_at_utc := "" }

def recC : PaperRecord :=
  { arxiv_id := "2401.0003", title := "", summary := "", authors := [],
    published := none, updated := none, abs_url := none,
    pdf_url := some "http://h/c.pdf", categories := [], fetched_at_utc := "" }

/-- Transfer oracle for C5's scenario: the second record's transfer raises a
transport error, the first and third succeed. -/
def transferMidFail : String → TransferOutcome := fun u =>
  if u = "http://h/a.pdf" then TransferOutcome.success [1]
  else if u = "http://h/b.pdf" then TransferOutcome.failBeforeBody
  else TransferOutcome.success [3]

/-- C4: for any run over `pre ++ r :: post`, when `r`'s computed destination
file already exists the downloader starts no transfer for `r` (its index is
never attempted), reports no failure for it, and the existing file's content
is untouched at the end of the run — hence re-running over the same records
never re-fetches or duplicates an existing artifact. -/
theorem downloader_idempotent_skip (transfer : String → TransferOutcome)
    (pdf_dir : String) (fs0 : FS) (pre post : List PaperRecord) (r : PaperRecord)
    (c : List Nat) (h : FS.lookup fs0 (pdf_path_for pdf_dir r) = some c) :
    pre.length ∉ (download_pdfs_for_records transfer (pre ++ r :: post) pdf_dir fs0).attempts
    ∧ pre.length ∉ (download_pdfs_for_records transfer (pre ++ r :: post) pdf_dir fs0).failures
    ∧ FS.lookup (download_pdfs_for_records transfer (pre ++ r :: post) pdf_dir fs0).fs
        (pdf_path_for pdf_dir r) = some c := by
  unfold download_pdfs_for_records
  rw [dlLoop_append]
  have hst1 := dlLoop_fs_preserve transfer pdf_dir pre 0
    { fs := fs0, attempts := [], failures := [], sleeps := 0, visited := 0 }
    (pdf_path_for pdf_dir r) c h
  set st1 := dlLoop transfer pdf_dir pre 0
    { fs := fs0, attempts := [], failures := [], sleeps := 0, visited := 0 } with hst1def
  have hskip : dlStep transfer pdf_dir (0 + pre.length) r st1
      = { st1 with visited := st1.visited + 1 } :=
    dlStep_skip transfer pdf_dir (0 + pre.length) r st1 c hst1
  have hloop : dlLoop transfer pdf_dir (r :: post) (0 + pre.length) st1
      = dlLoop transfer pdf_dir post (0 + pre.length + 1)
          { st1 with visited := st1.visited + 1 } := by
    simp only [dlLoop]
    rw [hskip]
  rw [hloop]
  have hpre_a : pre.length ∉ st1.attempts := by
    intro hmem
    rcases (dlLoop_mem_bound transfer pdf_dir pre 0 _ pre.length).1 hmem with hmem | hmem
    · simp at hmem
    · omega
  have hpre_f : pre.length ∉ st1.failures := by
    intro hmem
    rcases (dlLoop_mem_bound transfer pdf_dir pre 0 _ pre.length).2 hmem with hmem | hmem
    · simp at hmem
    · omega
  refine ⟨?_, ?_, ?_⟩
  · intro hmem
    rcases (dlLoop_mem_bound transfer pdf_dir post (0 + pre.length + 1) _ pre.length).1 hmem
      with hmem | hmem
    · exact hpre_a hmem
    · omega
  · intro hmem
    rcases (dlLoop_mem_bound transfer pdf_dir post (0 + pre.length + 1) _ pre.length).2 hmem
      with hmem | hmem
    · exact hpre_f hmem
    · omega
  · exact dlLoop_fs_preserve transfer pdf_dir post (0 + pre.length + 1) _ _ _ hst1

/-- Witness for C4: a single record whose destination already holds bytes
`[9]` — not attempted, not failed, file content unchanged, even though the
transfer oracle would succeed. -/
theorem downloader_idempotent_skip_witness :
    (0 : Nat) ∉ (download_pdfs_for_records (fun _ => TransferOutcome.success [5])
        ([] ++ recA :: []) "pdfs" [("pdfs/2401.0001.pdf", [9])]).attempts
    ∧ (0 : Nat) ∉ (download_pdfs_for_records (fun _ => TransferOutcome.success [5])
        ([] ++ recA :: []) "pdfs" [("pdfs/2401.0001.pdf", [9])]).failures
    ∧ FS.lookup (download_pdfs_for_records (fun _ => TransferOutcome.success [5])
        ([] ++ recA :: []) "pdfs" [("pdfs/2401.0001.pdf", [9])]).fs
        (pdf_path_for "pdfs" recA) = some [9] := by
  have h := downloader_idempotent_skip (fun _ => TransferOutcome.success [5]) "pdfs"
    [("pdfs/2401.0001.pdf", [9])] [] [] recA [9] (by decide)
  simpa using h

/-- C5: the downloader visits every record of every input — a per-record
failure never aborts the loop — and in the concrete three-record scenario
where the second transfer raises, all three records are attempted, only the
second is reported failed, and the first and third artifacts exist at their
destinations afterwards. -/
theorem downloader_fault_isolation :
    (∀ (transfer : String → TransferOutcome) (records : List PaperRecord)
        (pdf_dir : String) (fs : FS),
        (download_pdfs_for_records transfer records pdf_dir fs).visited = records.length)
    ∧ ((download_pdfs_for_records transferMidFail [recA, recB, recC] "pdfs" []).attempts
          = [0, 1, 2]
      ∧ (download_pdfs_for_records transferMidFail [recA, recB, recC] "pdfs" []).failures
          = [1]
      ∧ FS.lookup (download_pdfs_for_records transferMidFail [recA, recB, recC] "pdfs" []).fs
          (pdf_path_for "pdfs" recA) = some [1]
      ∧ FS.lookup (download_pdfs_for_records transferMidFail [recA, recB, recC] "pdfs" []).fs
          (pdf_path_for "pdfs" recC) = some [3]) := by
  constructor
  · intro transfer records pdf_dir fs
    unfold download_pdfs_for_records
    rw [dlLoop_visited]
    simp
  · decide

/-- Transfer oracle for C6's counterexample: the stream breaks after one byte. -/
def transferBreaks : String → TransferOutcome := fun _ =>
  TransferOutcome.failMidStream [7]

/-- Transfer oracle for C6's second run: a retry would succeed. -/
def transferGood : String → TransferOutcome := fun _ =>
  TransferOutcome.success [1, 2, 3]

/-- C6 counterexample: a mid-stream transfer failure for `recA` leaves the
partial file `[7]` at the destination (so a partial file IS left), and a
re-run over the same record — against an oracle that would now deliver the
full body — starts no transfer and keeps the partial bytes: the partial file
silently counts as "already exists" and permanently blocks the retry.  This
falsifies both disjuncts of the claim at one concrete input. -/
theorem partial_file_counts_as_existing :
    (download_pdfs_for_records transferBreaks [recA] "pdfs" []).failures = [0]
    ∧ FS.lookup (download_pdfs_for_records transferBreaks [recA] "pdfs" []).fs
        (pdf_path_for "pdfs" recA) = some [7]
    ∧ (download_pdfs_for_records transferGood [recA] "pdfs"
        (download_pdfs_for_records transferBreaks [recA] "pdfs" []).fs).attempts = []
    ∧ FS.lookup (download_pdfs_for_records transferGood [recA] "pdfs"
        (download_pdfs_for_records transferBreaks [recA] "pdfs" []).fs).fs
        (pdf_path_for "pdfs" recA) = some [7] := by
  decide

/-- C6 amended: per-record failure effects of `download_pdf` inside the loop —
a failure before any body byte (non-success status / connect error) leaves the
file system unchanged and only reports the failure; a mid-stream failure
reports the failure but leaves the partially written bytes at the destination,
and any later iteration for the same record (any run, any state holding that
partial file) is a pure skip: the partial file counts as already existing and
the record is never retried. -/
theorem download_failure_file_effects (transfer : String → TransferOutcome)
    (pdf_dir : String) (i : Nat) (rec : PaperRecord) (st : DlState) (url : String)
    (hurl : rec.pdf_url = some url) (hne : url ≠ "")
    (hnew : FS.lookup st.fs (pdf_path_for pdf_dir rec) = none) :
    (transfer url = TransferOutcome.failBeforeBody →
        (dlStep transfer pdf_dir i rec st).fs = st.fs
        ∧ (dlStep transfer pdf_dir i rec st).failures = st.failures ++ [i])
    ∧ (∀ part, transfer url = TransferOutcome.failMidStream part →
        FS.lookup (dlStep transfer pdf_dir i rec st).fs (pdf_path_for pdf_dir rec) = some part
        ∧ (dlStep transfer pdf_dir i rec st).failures = st.failures ++ [i]
        ∧ (∀ (transfer2 : String → TransferOutcome) (i2 : Nat) (st2 : DlState),
            FS.lookup st2.fs (pdf_path_for pdf_dir rec) = some part →
            dlStep transfer2 pdf_dir i2 rec st2 = { st2 with visited := st2.visited + 1 })) := by
  constructor
  · intro hfail
    unfold dlStep
    rw [hurl]
    dsimp only
    rw [if_neg hne, if_neg (by rw [hnew]; exact Bool.false_ne_true)]
    unfold download_pdf
    rw [hfail]
    exact ⟨rfl, rfl⟩
  · intro part hfail
    refine ⟨?_, ?_, ?_⟩
    · unfold dlStep
      rw [hurl]
      dsimp only
      rw [if_neg hne, if_neg (by rw [hnew]; exact Bool.false_ne_true)]
      unfold download_pdf
      rw [hfail]
      dsimp only
      exact FS.lookup_insert_self st.fs (pdf_path_for pdf_dir rec) part
    · unfold dlStep
      rw [hurl]
      dsimp only
      rw [if_neg hne, if_neg (by rw [hnew]; exact Bool.false_ne_true)]
      unfold download_pdf
      rw [hfail]
    · intro transfer2 i2 st2 h2
      exact dlStep_skip transfer2 pdf_dir i2 rec st2 part h2

/-- Witness for C6's amended theorem: concrete mid-stream failure effects and
the blocked retry, plus a fail-before-body case leaving the directory
untouched. -/
theorem download_failure_file_effects_witness :
    FS.lookup (dlStep transferBreaks "pdfs" 0 recA
        { fs := [], attempts := [], failures := [], sleeps := 0, visited := 0 }).fs
        (pdf_path_for "pdfs" recA) = some [7]
    ∧ (dlStep transferBreaks "pdfs" 0 recA
        { fs := [], attempts := [], failures := [], sleeps := 0, visited := 0 }).failures = [0]
    ∧ (dlStep (fun _ => TransferOutcome.failBeforeBody) "pdfs" 0 recA
        { fs := [], attempts := [], failures := [], sleeps := 0, visited := 0 }).fs = [] := by
  have h1 := (download_failure_file_effects transferBreaks "pdfs" 0 recA
    { fs := [], attempts := [], failures := [], sleeps := 0, visited := 0 }
    "http://h/a.pdf" (by decide) (by decide) (by decide)).2 [7] (by decide)
  have h2 := (download_failure_file_effects (fun _ => TransferOutcome.failBeforeBody)
    "pdfs" 0 recA { fs := [], attempts := [], failures := [], sleeps := 0, visited := 0 }
    "http://h/a.pdf" (by decide) (by decide) (by decide)).1 (by decide)
  exact ⟨h1.1, by simpa using h1.2.1, h2.1⟩

end FetchFromArxiv
